import Mathlib

/-!
Verification development for the LangGraphServer backend.

Shallow embedding of the parts of the repository the verified claims are
about:

* `src/backend/app/routers/code_generator.py` — the Jinja template
  `LANGGRAPH_TEMPLATE`, the node bodies it emits (decision, loop,
  retry-delay) and the `POST /generate_code` handler
  `generate_python_code`;
* `src/backend/app/utils/human_pause_utils.py` — `HumanPauseManager`
  (`resume_execution`, `request_intervention`);
* `src/backend/app/utils/memory_utils.py` — `ShortTermMemory.write`,
  `LongTermMemory.write` and the corresponding reads.

Python values are modelled by the inductive `PyVal`; Python dicts by
insertion-ordered association lists; machine integers and Python floats
by `Nat`/`Int`/`ℚ`; fallible code by `Option`/`Except`.  Randomness
(`random.uniform`) and the asyncio wait outcome are abstracted into
explicit parameters.
-/

namespace LangGraphServer

/-- A JSON-ish Python value, sufficient for the workflow state maps the
repository stores in memory tiers and intervention requests. -/
inductive PyVal where
  | vNone : PyVal
  | vBool : Bool → PyVal
  | vInt : Int → PyVal
  | vStr : String → PyVal
  | vList : List PyVal → PyVal
  | vDict : List (String × PyVal) → PyVal

/-- Association-list lookup, modelling Python `d.get(k)` /
`d[k]` on an insertion-ordered dict. -/
def alGet {α : Type} (k : String) : List (String × α) → Option α
  | [] => none
  | (k', v) :: rest => if k' = k then some v else alGet k rest

/-- Association-list membership, modelling Python `k in d`. -/
def alMem {α : Type} (k : String) (l : List (String × α)) : Bool :=
  (alGet k l).isSome

/-- Association-list update, modelling Python `d[k] = v`: replaces the
value in place when the key is present, otherwise appends the pair
(Python dicts keep insertion order). -/
def alSet {α : Type} (k : String) (v : α) : List (String × α) → List (String × α)
  | [] => [(k, v)]
  | (k', v') :: rest =>
      if k' = k then (k, v) :: rest else (k', v') :: alSet k v rest

/-- Python `old.update(new)` on dicts: existing keys are overwritten in
place, new keys are appended in the order they appear in `new`. -/
def dictUpdate (old new : List (String × PyVal)) : List (String × PyVal) :=
  new.foldl (fun acc kv => alSet kv.1 kv.2 acc) old

section MemoryUtils
/-!
### `src/backend/app/utils/memory_utils.py`

`STATE_MEMORY` is a dict of namespaces, each a dict of key/value pairs;
the long-term tier stores each key behind a metadata wrapper
`{"_value": v, "_created_at": t, ("_expires_at": t+ttl)}`.  The
file-backed `_load_memory`/`_save_memory` round-trip of the long-term
tier is modelled as the identity on the cache (the claims under
verification do not involve expiry cleanup).
-/

/-- A namespace map of the short-term tier (`STATE_MEMORY[ns]`). -/
abbrev StNamespace := List (String × PyVal)

/-- The whole short-term store (`STATE_MEMORY`). -/
abbrev StStore := List (String × StNamespace)

/-- Merge performed by both memory tiers when the key already exists and
`overwrite_existing` is false, translated from the `isinstance` chain in
`ShortTermMemory.write` (lines 70–83) and `LongTermMemory.write`
(lines 198–211): list-extend, dict-update, string-concatenation, and a
two-element list `[existing, value]` for every other combination. -/
def mergeExisting (existing value : PyVal) : PyVal :=
  match existing, value with
  | PyVal.vList a, PyVal.vList b => PyVal.vList (a ++ b)
  | PyVal.vDict a, PyVal.vDict b => PyVal.vDict (dictUpdate a b)
  | PyVal.vStr a, PyVal.vStr b => PyVal.vStr (a ++ b)
  | e, v => PyVal.vList [e, v]

/-- `ShortTermMemory.write` (memory_utils.py lines 54–83).  The `ttl`
argument is accepted and — exactly as in the source, whose docstring
says "not used for short-term memory" — never consulted. -/
def ShortTermMemory.write (mem : StStore) (key : String) (value : PyVal)
    (nspace : Option String) (ttl : Option Nat)
    (overwrite_existing : Bool) : StStore :=
  let _ := ttl
  let ns := nspace.getD "default"
  let nsMap := (alGet ns mem).getD []
  let newVal :=
    if alMem key nsMap && !overwrite_existing then
      mergeExisting ((alGet key nsMap).getD PyVal.vNone) value
    else value
  alSet ns (alSet key newVal nsMap) mem

/-- `ShortTermMemory.read` for a present `key` argument
(memory_utils.py lines 34–52): `STATE_MEMORY.get(ns, {}).get(key)`,
with `None` modelled as `Option.none`. -/
def ShortTermMemory.read (mem : StStore) (key : String)
    (nspace : Option String) : Option PyVal :=
  match alGet (nspace.getD "default") mem with
  | none => none
  | some nsMap => alGet key nsMap

/-- One stored entry of the long-term tier.  Entries written through
`LongTermMemory.write` are always `wrapped` (a dict carrying `_value`,
`_created_at` and optionally `_expires_at`); `raw` models an entry whose
stored dict lacks `_value` (the source's "unknown format" branch). -/
inductive LtItem where
  | wrapped : PyVal → Nat → Option Nat → LtItem
  | raw : PyVal → LtItem

/-- A namespace map of the long-term tier. -/
abbrev LtNamespace := List (String × LtItem)

/-- The long-term cache (`LongTermMemory._memory_cache`). -/
abbrev LtStore := List (String × LtNamespace)

/-- `LongTermMemory.write` (memory_utils.py lines 170–217), with
`time.time()` supplied as the explicit argument `now`.  A fresh wrapped
item is built from the new value, then — when the key exists,
`overwrite_existing` is false and the existing entry carries `_value` —
its `_value` is replaced by the merged value; an existing entry without
`_value` leaves the fresh item as is ("Unknown format" branch). -/
def LongTermMemory.write (store : LtStore) (key : String) (value : PyVal)
    (nspace : Option String) (ttl : Option Nat) (now : Nat)
    (overwrite_existing : Bool) : LtStore :=
  let ns := nspace.getD "default"
  let nsMap := (alGet ns store).getD []
  let expires := ttl.map (fun t => now + t)
  let item :=
    match alGet key nsMap, overwrite_existing with
    | some (LtItem.wrapped ev _ _), false =>
        LtItem.wrapped (mergeExisting ev value) now expires
    | some (LtItem.raw _), false => LtItem.wrapped value now expires
    | _, _ => LtItem.wrapped value now expires
  alSet ns (alSet key item nsMap) store

/-- `LongTermMemory.read` for a present `key` argument
(memory_utils.py lines 137–168): unwraps `_value` when present,
otherwise returns the stored item itself. -/
def LongTermMemory.read (store : LtStore) (key : String)
    (nspace : Option String) : Option PyVal :=
  match alGet (nspace.getD "default") store with
  | none => none
  | some nsMap =>
      match alGet key nsMap with
      | some (LtItem.wrapped v _ _) => some v
      | some (LtItem.raw v) => some v
      | none => none

end MemoryUtils

section HumanPause
/-!
### `src/backend/app/utils/human_pause_utils.py`

`_paused_executions` is a dict from request id to
`HumanInterventionRequest`; the manager's methods mutate the stored
request objects in place, modelled here by returning the updated store.
The `asyncio.Future` a request carries is not part of the observable
record; the outcome of blocking on it is abstracted by `WaitOutcome`.
-/

/-- A workflow state map (`state: Dict[str, Any]`). -/
abbrev StateMap := List (String × PyVal)

/-- `HumanInterventionRequest` (human_pause_utils.py lines 19–60),
without the `id`, `created_at` and `future` fields (the id is the store
key; `created_at` and the future are not observed by the claims). -/
structure HumanInterventionRequest where
  message : String
  state : StateMap
  required_fields : List String
  allow_edits : Bool
  timeout_ms : Option Nat
  response : Option StateMap
  completed : Bool
  timed_out : Bool

/-- The constructor's field initialisation (lines 37–47): `response =
None`, `completed = False`, `timed_out = False`. -/
def HumanInterventionRequest.mk0 (message : String) (state : StateMap)
    (required_fields : List String) (allow_edits : Bool)
    (timeout_ms : Option Nat) : HumanInterventionRequest :=
  { message := message, state := state, required_fields := required_fields,
    allow_edits := allow_edits, timeout_ms := timeout_ms,
    response := none, completed := false, timed_out := false }

/-- The `_paused_executions` registry. -/
abbrev PausedStore := List (String × HumanInterventionRequest)

/-- `HumanPauseManager.resume_execution` (lines 157–201).  Returns the
boolean result together with the registry after the call (the source
mutates the stored request in place).  The redundant `and not skip`
guard of line 185 is kept as in the source. -/
def HumanPauseManager.resume_execution (store : PausedStore)
    (request_id : String) (response : StateMap) (skip : Bool) :
    Bool × PausedStore :=
  match alGet request_id store with
  | none => (false, store)
  | some request =>
    if request.completed || request.timed_out then (false, store)
    else if !skip && !request.required_fields.isEmpty && !skip &&
        request.required_fields.any (fun f => !alMem f response) then
      (false, store)
    else
      let newResponse :=
        if skip then request.state
        else if request.allow_edits then response
        else request.state
      (true,
       alSet request_id
         { request with response := some newResponse, completed := true }
         store)

/-- Outcome of blocking on `request.future`
(`run_until_complete`/`wait_for` in lines 100–117): either the future
was resolved by a resume, or `asyncio.wait_for` raised
`TimeoutError`. -/
inductive WaitOutcome where
  | resolvedW : WaitOutcome
  | timedOutW : WaitOutcome

/-- `HumanPauseManager.request_intervention` (lines 66–131).  The
request is created and registered under `rid`; the block on the future
is abstracted by `outcome` (a timeout is only possible when
`timeout_ms` is set), and on the resolved path the registry as left by
the resolving `resume_execution` call is supplied as `storeAtWake`.
Returns the state handed back to the blocked caller together with the
registry (the 5-minute delayed cleanup of the `finally` block is not an
immediate effect and is not modelled). -/
def HumanPauseManager.request_intervention (message : String)
    (state : StateMap) (required_fields : List String)
    (allow_edits : Bool) (timeout_ms : Option Nat) (rid : String)
    (store : PausedStore) (outcome : WaitOutcome)
    (storeAtWake : PausedStore) : StateMap × PausedStore :=
  let request := HumanInterventionRequest.mk0 message state
    required_fields allow_edits timeout_ms
  let registered := alSet rid request store
  match timeout_ms, outcome with
  | some _, WaitOutcome.timedOutW =>
      -- except asyncio.TimeoutError: request.timed_out = True; return state
      (state, alSet rid { request with timed_out := true } registered)
  | _, _ =>
      -- future resolved: return request.response if not None else state
      (match (alGet rid storeAtWake).bind (fun r => r.response) with
       | some r => r
       | none => state,
       storeAtWake)

end HumanPause

section NodeBodies
/-!
### Node bodies emitted by `LANGGRAPH_TEMPLATE`
(`src/backend/app/routers/code_generator.py`)

The template bakes each node's configuration (`node.data.…`) into the
emitted Python function as constants; the definitions below are the
emitted functions parameterised by that configuration.  Jinja
truthiness of an optional string configuration value (`{% if
node.data.x %}`) is `false` for both a missing value and the empty
string.
-/

/-- Python truthiness `bool(v)` on the modelled values. -/
def pyTruthy : PyVal → Bool
  | PyVal.vNone => false
  | PyVal.vBool b => b
  | PyVal.vInt n => n != 0
  | PyVal.vStr s => s ≠ ""
  | PyVal.vList l => !l.isEmpty
  | PyVal.vDict d => !d.isEmpty

/-- Character-list infix test: `sub` occurs contiguously in the second
list. -/
def charsContain (sub : List Char) : List Char → Bool
  | [] => sub.isEmpty
  | c :: rest => List.isPrefixOf sub (c :: rest) || charsContain sub rest

/-- Python substring test `sub in s`. -/
def pyContains (sub s : String) : Bool :=
  charsContain sub.toList s.toList

/-- The whitespace characters Python's `str.strip()` removes. -/
def isPyWs (c : Char) : Bool :=
  c = ' ' || c = '\t' || c = '\n' || c = '\r' || c = '\x0b' || c = '\x0c'

/-- Python `s.lower().strip()` (ASCII case folding, which is exact for
every condition string a rendered template can contain in the claims
below). -/
def pyLowerStrip (s : String) : String :=
  let lowered := s.toList.map Char.toLower
  String.mk (((lowered.dropWhile isPyWs).reverse.dropWhile isPyWs).reverse)

/-- Replacement of leftmost non-overlapping occurrences of a non-empty
pattern on character lists, fuelled by the input length so the
recursion is structural. -/
def charsReplaceFuel (pat repl : List Char) : Nat → List Char → List Char
  | 0, l => l
  | _ + 1, [] => []
  | fuel + 1, c :: rest =>
      if !pat.isEmpty && List.isPrefixOf pat (c :: rest) then
        repl ++ charsReplaceFuel pat repl fuel (List.drop pat.length (c :: rest))
      else c :: charsReplaceFuel pat repl fuel rest

/-- Python `s.replace(pat, repl)` for a non-empty pattern (the template
only replaces the constant patterns `"decision."` etc.). -/
def pyReplaceAll (s pat repl : String) : String :=
  String.mk (charsReplaceFuel pat.toList repl.toList s.length s.toList)

/-- Jinja truthiness of an optional string template variable. -/
def jinjaTruthyS : Option String → Bool
  | none => false
  | some s => s ≠ ""

/-- The values the simple decision mode reads out of the execution
state (template lines 414–419 and 446–451): `input`, `output`,
`context` and `errors`, each defaulted as in the source. -/
structure StateValues where
  input : PyVal
  output : PyVal
  context : List (String × PyVal)
  errors : List PyVal

/-- `evaluate_condition` as emitted inside a simple-mode decision node
(template lines 421–443): the free-text condition is lowercased and
stripped, then a fixed keyword heuristic runs in order — `error`,
`success`, `empty`/`missing`, `fail` — each guarded by the condition
text containing the keyword, with `default` as the fallthrough. -/
def evaluate_condition (condition : String) (sv : StateValues) : String :=
  let c := pyLowerStrip condition
  if pyContains "error" c && !sv.errors.isEmpty then "error"
  else if pyContains "success" c && pyTruthy sv.output then "success"
  else if (pyContains "empty" c || pyContains "missing" c)
      && !pyTruthy sv.output then "missing"
  else if pyContains "fail" c
      && (!pyTruthy sv.output || !sv.errors.isEmpty) then "failure"
  else "default"

/-- Configuration of a decision node baked into the emitted function:
`node.data.condition`, `node.data.branches` (with `[]` covering both an
empty and an absent list) and `node.data.defaultBranch`. -/
structure DecisionConfig where
  condition : String
  branches : List String
  defaultBranch : Option String

/-- The fallback branch emitted after the heuristic misses (template
lines 460–467): the configured default branch when Jinja-truthy, else
the first configured branch, else the literal `"default"`. -/
def decisionFallback (cfg : DecisionConfig) : String :=
  if jinjaTruthyS cfg.defaultBranch then cfg.defaultBranch.getD ""
  else if !cfg.branches.isEmpty then cfg.branches.headD "default"
  else "default"

/-- The simple-mode decision node body (template lines 412–467): runs
`evaluate_condition`, keeps the result when it is among the configured
branches, otherwise falls back; always returns `{"next": <branch>}`. -/
def decisionNodeSimple (cfg : DecisionConfig) (sv : StateValues) :
    List (String × String) :=
  let result := evaluate_condition cfg.condition sv
  if cfg.branches.contains result then [("next", result)]
  else [("next", decisionFallback cfg)]

/-- The advanced-mode decision node body (template lines 361–399).
Each predicate is `(name, outcome)` where the outcome is the truthiness
of its `eval`, or `none` when evaluation raised (the emitted code
swallows the exception and continues); the first true predicate's name
is returned as `{"next": <name>}`, otherwise the fallback. -/
def decisionNodeAdvanced (cfg : DecisionConfig)
    (predicates : List (String × Option Bool)) : List (String × String) :=
  match predicates.find? (fun p => p.2 == some true) with
  | some p => [("next", p.1)]
  | none => [("next", decisionFallback cfg)]

/-- Classification of an edge as a decision edge (template line 1150):
the `sourceHandle` is set and contains the substring `"decision"`. -/
def isDecisionEdge (sourceHandle : Option String) : Bool :=
  match sourceHandle with
  | none => false
  | some h => pyContains "decision" h

/-- The branch name the edge wiring extracts from the handle (template
lines 1154–1155): `sourceHandle.replace('decision.', '')`. -/
def decisionEdgeBranch (handle : String) : String :=
  pyReplaceAll handle "decision." ""

/-- The routing predicate emitted for a decision edge (template line
1154): `lambda state, result: result.get("decision", "default") ==
"<branch>"`, applied to the source node's returned dict. -/
def decisionEdgePredicate (branch : String)
    (result : List (String × String)) : Bool :=
  ((alGet "decision" result).getD "default") == branch

/-- Per-node-id loop bookkeeping `state['loop_state'][node_id]`
(template lines 606–611). -/
structure LoopState where
  iterations : Nat
  index : Nat
  complete : Bool

/-- Loop node configuration baked into the emitted function.
`maxIterations` is rendered by `{{ node.data.maxIterations|default(10)
}}` — and since the request model `NodeData` has no `maxIterations`
field, the rendered constant is always `10`.  `collectionKey = none`
covers a Jinja-falsy `collectionKey` (the template then emits the
condition-based branch), likewise `condition`. -/
structure LoopConfig where
  maxIterations : Int
  collectionKey : Option String
  iteratorKey : Option String
  condition : Option String

/-- Result of one call of the emitted loop node: the returned
`decision`, the `loop_state` map and the other state keys after the
in-place mutations, and whether a Python exception escaped (integer
indexing of a string-keyed dict collection raises `KeyError`). -/
structure LoopOutcome where
  decision : String
  loopState : List (String × LoopState)
  vals : StateMap
  raised : Bool

/-- The loop node body (template lines 597–697).  `condEval` abstracts
the `exec`-based evaluation of the configured condition against the
current state: `some b` is the truthiness of its return value, `none`
means the evaluation raised or the helper function was not created
(both emitted paths exit the loop).  Steps, as in the source: ensure
the per-node entry exists; exit when `max_iterations > 0` and the
iteration counter has reached it; increment the counter; then run the
collection-based or condition-based mode. -/
def loopNode (cfg : LoopConfig) (nodeId : String) (condEval : Option Bool)
    (loopStateIn : List (String × LoopState)) (vals : StateMap) :
    LoopOutcome :=
  let ls0 := (alGet nodeId loopStateIn).getD ⟨0, 0, false⟩
  let lsMap := alSet nodeId ls0 loopStateIn
  if 0 < cfg.maxIterations && cfg.maxIterations ≤ (ls0.iterations : Int) then
    { decision := "exit", loopState := lsMap, vals := vals, raised := false }
  else
    let ls1 : LoopState :=
      { ls0 with iterations := ls0.iterations + 1 }
    let lsMap1 := alSet nodeId ls1 lsMap
    match cfg.collectionKey with
    | some ck =>
      (match alGet ck vals with
       | some coll =>
         let lenOpt : Option Nat :=
           match coll with
           | PyVal.vList l => some l.length
           | PyVal.vDict d => some d.length
           | _ => none
         (match lenOpt with
          | none =>
              { decision := "exit",
                loopState := alSet nodeId { ls1 with complete := true } lsMap,
                vals := vals, raised := false }
          | some len =>
            if len ≤ ls1.index then
              { decision := "exit",
                loopState := alSet nodeId { ls1 with complete := true } lsMap,
                vals := vals, raised := false }
            else
              match coll with
              | PyVal.vList l =>
                  let current := l.getD ls1.index PyVal.vNone
                  let vals' :=
                    match cfg.iteratorKey with
                    | some ik => alSet ik current vals
                    | none => vals
                  { decision := "continue",
                    loopState :=
                      alSet nodeId { ls1 with index := ls1.index + 1 } lsMap,
                    vals := vals', raised := false }
              | _ =>
                  -- dict collection: `collection[loop_state['index']]`
                  -- raises KeyError on the integer index
                  { decision := "", loopState := lsMap1, vals := vals,
                    raised := true })
       | none =>
           { decision := "exit", loopState := lsMap1, vals := vals,
             raised := false })
    | none =>
      match cfg.condition with
      | some _ =>
        (match condEval with
         | some true =>
             { decision := "continue", loopState := lsMap1, vals := vals,
               raised := false }
         | some false =>
             { decision := "exit",
               loopState := alSet nodeId { ls1 with complete := true } lsMap,
               vals := vals, raised := false }
         | none =>
             { decision := "exit", loopState := lsMap1, vals := vals,
               raised := false })
      | none =>
          { decision := "continue", loopState := lsMap1, vals := vals,
            raised := false }

/-- `calculate_retry_delay` as emitted for an error-retry node
(template lines 792–808), over exact rationals in place of Python
floats.  `jitter_factor` is the value sampled by
`random.uniform(0.8, 1.2)`, passed explicitly. -/
def calculate_retry_delay (attempt : Nat)
    (initial_delay_ms max_delay_ms : ℚ) (backoff_type : String)
    (use_jitter : Bool) (jitter_factor : ℚ) : ℚ :=
  let delay :=
    if backoff_type == "constant" then initial_delay_ms
    else if backoff_type == "linear" then initial_delay_ms * attempt
    else initial_delay_ms * 2 ^ (attempt - 1)
  let capped := min delay max_delay_ms
  if use_jitter then capped * jitter_factor else capped

end NodeBodies

section CodeGenerator
/-!
### The template's Jinja structure and the `/generate_code` handler
(`src/backend/app/routers/code_generator.py` lines 60–1296)

`LANGGRAPH_TEMPLATE` is parsed by `jinja2.Template(...)` inside the
handler.  Jinja's block structure is determined solely by the sequence
of `{% … %}` control tags, so the template's parsability is modelled by
that sequence (transcribed below tag by tag from the source) together
with a stack checker.  The checker is deliberately *more permissive*
than Jinja's parser (it accepts `elif` after `else`, any tag ordering
inside a frame, and ignores tag expressions entirely), so a sequence it
rejects is certainly rejected by Jinja.
-/

/-- The kind of one `{% … %}` control tag. -/
inductive JTag where
  | jfor : JTag
  | jif : JTag
  | jelif : JTag
  | jelse : JTag
  | jendif : JTag
  | jendfor : JTag
  | jset : JTag
  | jdo : JTag

/-- The 171 control tags of `LANGGRAPH_TEMPLATE` in source order
(template lines 107–1237).  Notable places: the 88th tag is the
`endfor` on line 492 closing the `for node in nodes` loop, after which
the block for `humanPause` lost its opening `if` — its `endif` on line
960 (the 117th tag), the `endif` on line 1053 and the `endfor` on line
1125 are unmatched. -/
def langgraphTemplateTags : List JTag := [
    JTag.jfor, JTag.jif, JTag.jif, JTag.jelse, JTag.jendif, JTag.jendif,
    JTag.jif, JTag.jif, JTag.jelif, JTag.jelse, JTag.jendif, JTag.jif,
    JTag.jendif, JTag.jendif, JTag.jif, JTag.jif, JTag.jif, JTag.jendif,
    JTag.jif, JTag.jendif, JTag.jelif, JTag.jelse, JTag.jif, JTag.jelse,
    JTag.jendif, JTag.jendif, JTag.jendif, JTag.jif, JTag.jif, JTag.jelse,
    JTag.jendif, JTag.jif, JTag.jelse, JTag.jendif, JTag.jif, JTag.jelse,
    JTag.jendif, JTag.jendif, JTag.jif, JTag.jif, JTag.jelse, JTag.jendif,
    JTag.jif, JTag.jelse, JTag.jendif, JTag.jendif, JTag.jif, JTag.jif,
    JTag.jif, JTag.jendif, JTag.jelse, JTag.jendif, JTag.jif, JTag.jendif,
    JTag.jendif, JTag.jif, JTag.jendif, JTag.jif, JTag.jendif, JTag.jif,
    JTag.jif, JTag.jfor, JTag.jendfor, JTag.jif, JTag.jelif, JTag.jelse,
    JTag.jendif, JTag.jif, JTag.jelif, JTag.jelse, JTag.jendif, JTag.jelif,
    JTag.jif, JTag.jelif, JTag.jelse, JTag.jendif, JTag.jif, JTag.jelif,
    JTag.jelse, JTag.jendif, JTag.jelse, JTag.jif, JTag.jelif, JTag.jelse,
    JTag.jendif, JTag.jendif, JTag.jendif, JTag.jendfor, JTag.jif, JTag.jif,
    JTag.jendif, JTag.jendif, JTag.jif, JTag.jif, JTag.jelif, JTag.jelse,
    JTag.jendif, JTag.jendif, JTag.jif, JTag.jif, JTag.jif, JTag.jendif,
    JTag.jelse, JTag.jif, JTag.jelse, JTag.jendif, JTag.jendif, JTag.jendif,
    JTag.jif, JTag.jendif, JTag.jif, JTag.jendif, JTag.jif, JTag.jelse,
    JTag.jendif, JTag.jif, JTag.jelse, JTag.jendif, JTag.jendif, JTag.jif,
    JTag.jif, JTag.jelse, JTag.jendif, JTag.jif, JTag.jelse, JTag.jendif,
    JTag.jelse, JTag.jendif, JTag.jendif, JTag.jif, JTag.jif, JTag.jelse,
    JTag.jendif, JTag.jendif, JTag.jendfor, JTag.jset, JTag.jset, JTag.jfor,
    JTag.jif, JTag.jdo, JTag.jelif, JTag.jdo, JTag.jendif, JTag.jendfor,
    JTag.jfor, JTag.jif, JTag.jendif, JTag.jendfor, JTag.jfor, JTag.jif,
    JTag.jelif, JTag.jif, JTag.jelif, JTag.jendif, JTag.jelif, JTag.jif,
    JTag.jelif, JTag.jendif, JTag.jelif, JTag.jelif, JTag.jif, JTag.jendif,
    JTag.jelse, JTag.jendif, JTag.jendfor, JTag.jset, JTag.jfor, JTag.jset,
    JTag.jendfor, JTag.jif, JTag.jendif]

/-- An open block frame during structural checking. -/
inductive JFrame where
  | fFor : JFrame
  | fIf : JFrame

/-- Permissive structural check of a Jinja tag sequence: `for`/`if`
push a frame, `endfor`/`endif` must close the matching innermost frame,
`elif` needs an open `if`, `else` needs any open frame, `set`/`do` are
standalone; at the end every frame must be closed.  It accepts a
superset of what Jinja's parser accepts. -/
def jinjaCheck : List JTag → List JFrame → Bool
  | [], stk => stk.isEmpty
  | JTag.jfor :: rest, stk => jinjaCheck rest (JFrame.fFor :: stk)
  | JTag.jif :: rest, stk => jinjaCheck rest (JFrame.fIf :: stk)
  | JTag.jelif :: rest, JFrame.fIf :: stk =>
      jinjaCheck rest (JFrame.fIf :: stk)
  | JTag.jelif :: _, _ => false
  | JTag.jelse :: rest, f :: stk => jinjaCheck rest (f :: stk)
  | JTag.jelse :: _, [] => false
  | JTag.jendif :: rest, JFrame.fIf :: stk => jinjaCheck rest stk
  | JTag.jendif :: _, _ => false
  | JTag.jendfor :: rest, JFrame.fFor :: stk => jinjaCheck rest stk
  | JTag.jendfor :: _, _ => false
  | JTag.jset :: rest, stk => jinjaCheck rest stk
  | JTag.jdo :: rest, stk => jinjaCheck rest stk

/-- Whether `jinja2.Template(LANGGRAPH_TEMPLATE)` can succeed: the
structural check of the template's tag sequence. -/
def templateParses : Bool := jinjaCheck langgraphTemplateTags []

/-- `NodeData` (code_generator.py lines 19–36); only `label` is
required, the per-type configuration fields are modelled where the
emitted node bodies use them. -/
structure NodeData where
  label : String

/-- `Node` of the request model (lines 38–42); `position` is
presentational and omitted. -/
structure GNode where
  id : String
  type : String
  data : NodeData

/-- `Edge` of the request model (lines 44–51). -/
structure GEdge where
  id : String
  source : String
  target : String
  sourceHandle : Option String
  targetHandle : Option String

/-- `GraphSchema` of the request model (lines 53–56).  Any value of
this type has passed pydantic validation (the model imposes no
constraints beyond field presence and types). -/
structure GraphSchema where
  graphName : String
  nodes : List GNode
  edges : List GEdge

/-- The schema contains a node of the start type (`startNode` is the
type string the template dispatches on). -/
def GraphSchema.hasStart (g : GraphSchema) : Bool :=
  g.nodes.any (fun n => n.type == "startNode")

/-- The schema contains at least one node of the end type. -/
def GraphSchema.hasEnd (g : GraphSchema) : Bool :=
  g.nodes.any (fun n => n.type == "endNode")

/-- An exception raised inside the handler's `try` block. -/
inductive PyExc where
  | templateSyntaxError : PyExc
  | httpException : Nat → String → PyExc

/-- `str(e)` for the modelled exceptions (FastAPI's `HTTPException`
stringifies as `"<status>: <detail>"`). -/
def PyExc.message : PyExc → String
  | PyExc.templateSyntaxError => "Encountered unknown tag 'endif'."
  | PyExc.httpException status detail => toString status ++ ": " ++ detail

/-- The response of the `/generate_code` endpoint. -/
inductive HandlerResult where
  | ok : String → String → HandlerResult
  | httpError : Nat → String → HandlerResult

/-- The HTTP status of a handler result. -/
def HandlerResult.status : HandlerResult → Nat
  | HandlerResult.ok _ _ => 200
  | HandlerResult.httpError s _ => s

/-- The body of the handler's `try` block (lines 1258–1292):
`Template(LANGGRAPH_TEMPLATE)` raises when the template does not parse;
otherwise the rendered code is written to a temp file and checked with
`py_compile` (return code abstracted as `pyCompileRc`); a non-zero
return code raises `HTTPException(400, …)`; otherwise the file path and
the code are returned. -/
def handlerTry (templateOk : Bool) (pyCompileRc : Nat)
    (filePath renderedCode : String) : Except PyExc (String × String) :=
  if !templateOk then Except.error PyExc.templateSyntaxError
  else if pyCompileRc != 0 then
    Except.error (PyExc.httpException 400
      "Generated code has syntax errors: ")
  else Except.ok (filePath, renderedCode)

/-- The handler's `try`/`except` composition for a given template
parse outcome: `except Exception as e: raise HTTPException(500,
str(e))` (lines 1294–1295) catches *every* exception of the body —
including the `HTTPException(400, …)` the body itself raises, since
FastAPI's `HTTPException` is an `Exception` subclass. -/
def runHandler (templateOk : Bool) (pyCompileRc : Nat)
    (filePath renderedCode : String) : HandlerResult :=
  match handlerTry templateOk pyCompileRc filePath renderedCode with
  | Except.ok (p, c) => HandlerResult.ok p c
  | Except.error e => HandlerResult.httpError 500 e.message

/-- `generate_python_code` (lines 1255–1295): the handler run against
the actual template.  The `py_compile` exit code and the temp-file path
are outcomes of external processes, passed as oracles; `schema` is the
validated request body (its rendering is never reached when the
template fails to parse). -/
def generate_python_code (schema : GraphSchema) (pyCompileRc : Nat)
    (filePath renderedCode : String) : HandlerResult :=
  let _ := schema
  runHandler templateParses pyCompileRc filePath renderedCode

end CodeGenerator

section Fixtures
/-!
### Concrete inputs used by witnesses and counterexamples
-/

/-- A minimal valid schema with a start node and an end node. -/
def minimalSchema : GraphSchema :=
  { graphName := "Minimal",
    nodes := [
      { id := "start-1", type := "startNode", data := { label := "Start" } },
      { id := "end-1", type := "endNode", data := { label := "End" } }],
    edges := [
      { id := "e1", source := "start-1", target := "end-1",
        sourceHandle := none, targetHandle := none }] }

/-- State values with a non-empty `errors` list and empty output. -/
def svErrors : StateValues :=
  { input := PyVal.vStr "q", output := PyVal.vStr "",
    context := [], errors := [PyVal.vStr "boom"] }

/-- State values with a non-empty output and no errors. -/
def svSuccess : StateValues :=
  { input := PyVal.vStr "q", output := PyVal.vStr "answer",
    context := [], errors := [] }

/-- A registry holding one pending request that requires the field
`"approval"`. -/
def pendingStore : PausedStore :=
  [("req-1",
    { message := "confirm?", state := [("input", PyVal.vStr "q")],
      required_fields := ["approval"], allow_edits := true,
      timeout_ms := none, response := none,
      completed := false, timed_out := false })]

/-- A short-term store holding a string under `"k"` in the default
namespace. -/
def stStore0 : StStore := [("default", [("k", PyVal.vStr "a")])]

/-- A long-term store holding a wrapped string under `"k"` in the
default namespace. -/
def ltStore0 : LtStore :=
  [("default", [("k", LtItem.wrapped (PyVal.vStr "a") 5 none)])]

end Fixtures

section Helpers

/-- Updating an association list at a key makes that key map to the new
value. -/
theorem alGet_alSet_self {α : Type} (k : String) (v : α) :
    ∀ l : List (String × α), alGet k (alSet k v l) = some v := by
  intro l
  induction l with
  | nil => simp [alSet, alGet]
  | cons hd tl ih =>
      by_cases h : hd.1 = k
      · simp [alSet, alGet, h]
      · simpa [alSet, alGet, h] using ih

/-- The template's tag sequence fails the (permissive) structural
check, so `jinja2.Template(LANGGRAPH_TEMPLATE)` raises
`TemplateSyntaxError`. -/
theorem template_parse_fails : templateParses = false := by rfl

end Helpers

/-- Claim C1 (refuted by the code — code bug): the claim says that for
every valid `GraphSchema` with a start node and at least one end node,
`POST /generate_code` returns 200 with `file_path` and `code` and the
emitted program compiles.  In the source, `LANGGRAPH_TEMPLATE`'s tag
structure is unbalanced (the `humanPause` block lost its opening `{% if
%}`, leaving the `endif` on line 960, the `endif` on line 1053 and the
`endfor` on line 1125 unmatched), so `Template(LANGGRAPH_TEMPLATE)`
raises `TemplateSyntaxError` and the handler's `except Exception`
returns 500 for every request — including every valid schema with
start and end nodes, contradicting the repository's own
`test_generate_code_endpoint`. -/
theorem c1_handler_500_despite_valid_schema (schema : GraphSchema)
    (pyCompileRc : Nat) (filePath renderedCode : String)
    (hs : schema.hasStart = true) (he : schema.hasEnd = true) :
    (generate_python_code schema pyCompileRc filePath renderedCode).status
      = 500 := by
  show (runHandler templateParses pyCompileRc filePath renderedCode).status
      = 500
  rw [template_parse_fails]
  rfl

/-- Claim C1 witness: the minimal start→end schema has a start and an
end node and is answered with status 500. -/
theorem c1_witness :
    minimalSchema.hasStart = true ∧ minimalSchema.hasEnd = true ∧
    (generate_python_code minimalSchema 0 "/tmp/out.py" "code").status = 500 :=
  ⟨by rfl, by rfl,
   c1_handler_500_despite_valid_schema minimalSchema 0 "/tmp/out.py" "code"
     (by rfl) (by rfl)⟩

/-- Claim C2 (refuted by the code — code bug): the claim says a
post-render syntax-check failure yields HTTP 400 and 500 is reserved
for unexpected internal errors.  In the source the `raise
HTTPException(status_code=400, …)` sits inside the handler's `try`
block whose `except Exception as e` re-raises
`HTTPException(500, str(e))`; since FastAPI's `HTTPException` is an
`Exception` subclass, the 400 is swallowed: even with a parsable
template, a non-zero `py_compile` return code produces a 500 whose
detail is the stringified 400 error. -/
theorem c2_compile_failure_yields_500_not_400 (pyCompileRc : Nat)
    (filePath renderedCode : String) (h : pyCompileRc ≠ 0) :
    runHandler true pyCompileRc filePath renderedCode
      = HandlerResult.httpError 500 "400: Generated code has syntax errors: "
    ∧ (runHandler true pyCompileRc filePath renderedCode).status ≠ 400 := by
  have hb : (pyCompileRc != 0) = true := by simpa using h
  have hrun : runHandler true pyCompileRc filePath renderedCode
      = HandlerResult.httpError 500
          "400: Generated code has syntax errors: " := by
    unfold runHandler handlerTry
    simp [hb]
    rfl
  exact ⟨hrun, by rw [hrun]; simp [HandlerResult.status]⟩

/-- Claim C2 witness: exit code 1 from `py_compile` is answered with
the swallowed-400 500 response. -/
theorem c2_witness :
    runHandler true 1 "/tmp/out.py" "code"
      = HandlerResult.httpError 500 "400: Generated code has syntax errors: "
    ∧ (runHandler true 1 "/tmp/out.py" "code").status ≠ 400 :=
  c2_compile_failure_yields_500_not_400 1 "/tmp/out.py" "code" (by decide)

/-- Claim C3 (confirmed): `resume_execution(request_id, response,
skip=False)` returns `False` and leaves the registry — hence the
request's `completed`, `timed_out` and `response` fields — unchanged
when the id is unknown, or the request is already completed or timed
out, or a non-empty `required_fields` has a field absent from the
response. -/
theorem c3_resume_failure_leaves_store (store : PausedStore) (rid : String)
    (response : StateMap)
    (h : alGet rid store = none
      ∨ (∃ req, alGet rid store = some req
          ∧ (req.completed = true ∨ req.timed_out = true))
      ∨ (∃ req, alGet rid store = some req ∧ req.required_fields ≠ []
          ∧ ∃ f ∈ req.required_fields, alMem f response = false)) :
    HumanPauseManager.resume_execution store rid response false
      = (false, store) := by
  unfold HumanPauseManager.resume_execution
  rcases h with h1 | ⟨req, hq, hc⟩ | ⟨req, hq, hne, f, hf, hmem⟩
  · rw [h1]
  · rw [hq]
    rcases hc with hc | hc <;> simp [hc]
  · rw [hq]
    by_cases hct : (req.completed || req.timed_out) = true
    · simp [hct]
    · have hany : req.required_fields.any (fun g => !alMem g response)
          = true :=
        List.any_eq_true.mpr ⟨f, hf, by simp [hmem]⟩
      have hne' : req.required_fields.isEmpty = false := by
        cases hx : req.required_fields <;> simp_all
      simp [hct, hany, hne']

/-- Claim C3 witness: resuming the pending request that requires
`"approval"` with a response lacking that field fails and leaves the
registry unchanged. -/
theorem c3_witness :
    HumanPauseManager.resume_execution pendingStore "req-1"
      [("note", PyVal.vStr "hi")] false = (false, pendingStore) :=
  c3_resume_failure_leaves_store pendingStore "req-1"
    [("note", PyVal.vStr "hi")]
    (Or.inr (Or.inr ⟨_, rfl, by simp [pendingStore],
      "approval", by simp [pendingStore], rfl⟩))

/-- Claim C4 (confirmed): when a request carries a `timeout_ms` and the
wait on its future ends in `asyncio.TimeoutError` before any successful
resume, `request_intervention` returns the original pre-pause state to
the blocked caller and the registered request has `timed_out = True`
(and is still not completed). -/
theorem c4_timeout_unblocks_with_original_state (message : String)
    (state : StateMap) (required_fields : List String) (allow_edits : Bool)
    (t : Nat) (rid : String) (store storeAtWake : PausedStore) :
    (HumanPauseManager.request_intervention message state required_fields
        allow_edits (some t) rid store WaitOutcome.timedOutW storeAtWake).1
      = state
    ∧ alGet rid (HumanPauseManager.request_intervention message state
        required_fields allow_edits (some t) rid store WaitOutcome.timedOutW
        storeAtWake).2
      = some { HumanInterventionRequest.mk0 message state required_fields
                 allow_edits (some t) with timed_out := true } :=
  ⟨rfl, alGet_alSet_self rid _ _⟩

/-- Claim C5 (refuted by the code — code bug): the claim says the
wiring emitted for a decision edge fires exactly when the source node's
declared signal `next` equals the branch name.  The template's decision
nodes return `{"next": <branch>}` (lines 385, 394–398, 458–467), but
the emitted routing predicate reads `result.get("decision", "default")`
(line 1154), a key a decision node never sets — so on the node's actual
output the predicate is `"default" == <branch>` and never fires for the
declared branch (here `success`, correctly extracted from the handle
`decision.success`). -/
theorem c5_decision_edge_predicate_mismatch :
    isDecisionEdge (some "decision.success") = true
    ∧ decisionEdgeBranch "decision.success" = "success"
    ∧ decisionNodeSimple ⟨"route on success", ["success", "error"], none⟩
        svSuccess = [("next", "success")]
    ∧ decisionEdgePredicate "success"
        (decisionNodeSimple ⟨"route on success", ["success", "error"], none⟩
          svSuccess) = false
    ∧ ∀ b : String, decisionEdgePredicate b [("next", b)] = ("default" == b) :=
  ⟨rfl, rfl, rfl, rfl, fun _ => rfl⟩

/-- Claim C6 counterexample: a simple-mode decision node with the empty
condition string and branches `["success", "error"]`, on a state whose
`errors` list is non-empty, resolves to `success` — not to a branch of
the error/failure class — because the heuristic only returns `error`
when the condition text contains the keyword. -/
theorem c6_counterexample :
    svErrors.errors ≠ []
    ∧ decisionNodeSimple ⟨"", ["success", "error"], none⟩ svErrors
        = [("next", "success")] :=
  ⟨by simp [svErrors], rfl⟩

/-- Claim C6 as amended (proved): the simple-mode heuristic is filtered
through the free-text condition string.  When the lowercased/stripped
condition contains `error`, the errors list is non-empty and `error` is
a configured branch, the node resolves to `error`; when there are no
errors, the output is non-empty, the condition contains `success` and
`success` is a configured branch, it resolves to `success`; and
whenever the heuristic's key is not among the configured branches the
node falls back to the configured default branch or the first branch
(or `"default"`). -/
theorem c6_decision_simple_amended (cfg : DecisionConfig) (sv : StateValues) :
    (pyContains "error" (pyLowerStrip cfg.condition) = true → sv.errors ≠ [] →
      cfg.branches.contains "error" = true →
      decisionNodeSimple cfg sv = [("next", "error")])
    ∧ (sv.errors = [] → pyTruthy sv.output = true →
      pyContains "success" (pyLowerStrip cfg.condition) = true →
      cfg.branches.contains "success" = true →
      decisionNodeSimple cfg sv = [("next", "success")])
    ∧ (cfg.branches.contains (evaluate_condition cfg.condition sv) = false →
      decisionNodeSimple cfg sv = [("next", decisionFallback cfg)]) := by
  refine ⟨?_, ?_, ?_⟩
  · intro h1 h2 h3
    have hie : sv.errors.isEmpty = false := by
      cases hx : sv.errors <;> simp_all
    have hev : evaluate_condition cfg.condition sv = "error" := by
      unfold evaluate_condition
      simp [h1, hie]
    have h3m : "error" ∈ cfg.branches := by simpa using h3
    simp [decisionNodeSimple, hev, h3m]
  · intro h1 h2 h3 h4
    have hie : sv.errors.isEmpty = true := by simp [h1]
    have hev : evaluate_condition cfg.condition sv = "success" := by
      unfold evaluate_condition
      simp [hie, h2, h3]
    have h4m : "success" ∈ cfg.branches := by simpa using h4
    simp [decisionNodeSimple, hev, h4m]
  · intro h
    have hm : evaluate_condition cfg.condition sv ∉ cfg.branches := by
      simpa using h
    simp [decisionNodeSimple, hm]

/-- Claim C6 witness: each amended case at a concrete input — `error`
chosen when the condition mentions the keyword, `success` chosen on a
non-empty output without errors, and the first-branch fallback when the
heuristic key is not among the branches. -/
theorem c6_witness :
    decisionNodeSimple ⟨"Check ERROR", ["success", "error"], none⟩ svErrors
      = [("next", "error")]
    ∧ decisionNodeSimple ⟨"route on success", ["success", "error"], none⟩
        svSuccess = [("next", "success")]
    ∧ decisionNodeSimple ⟨"", ["alpha", "beta"], none⟩ svSuccess
        = [("next", decisionFallback ⟨"", ["alpha", "beta"], none⟩)] :=
  ⟨(c6_decision_simple_amended ⟨"Check ERROR", ["success", "error"], none⟩
      svErrors).1 rfl (by simp [svErrors]) rfl,
   (c6_decision_simple_amended ⟨"route on success", ["success", "error"], none⟩
      svSuccess).2.1 rfl rfl rfl rfl,
   (c6_decision_simple_amended ⟨"", ["alpha", "beta"], none⟩
      svSuccess).2.2 rfl⟩

/-- Claim C7 (confirmed): whenever a loop node's per-node-id iteration
counter has reached a positive configured `maxIterations` (the template
always renders the constant `10`, since the request model has no
`maxIterations` field), the node returns `decision = "exit"` before
incrementing, before touching the collection index, and before
evaluating the condition — regardless of the mode's own verdict. -/
theorem c7_loop_cap_forces_exit (cfg : LoopConfig) (nodeId : String)
    (condEval : Option Bool) (loopStateIn : List (String × LoopState))
    (vals : StateMap)
    (hpos : 0 < cfg.maxIterations)
    (hreached : cfg.maxIterations ≤
      ((((alGet nodeId loopStateIn).getD ⟨0, 0, false⟩).iterations : Nat) : Int)) :
    (loopNode cfg nodeId condEval loopStateIn vals).decision = "exit" := by
  unfold loopNode
  simp [hpos, hreached]

/-- Claim C7 witness: a collection-mode loop node whose counter is at
the cap of 10 exits although the collection index (2 of 4) would
continue, and a condition-mode loop node at the cap exits although its
condition evaluates true. -/
theorem c7_witness :
    (0 : Int) < 10
    ∧ (10 : Int) ≤ ((((alGet "loop_1"
        [("loop_1", (⟨10, 2, false⟩ : LoopState))]).getD
          ⟨0, 0, false⟩).iterations : Nat) : Int)
    ∧ (loopNode ⟨10, some "items", some "item", none⟩ "loop_1" none
        [("loop_1", ⟨10, 2, false⟩)]
        [("items", PyVal.vList
          [PyVal.vInt 1, PyVal.vInt 2, PyVal.vInt 3, PyVal.vInt 4])]).decision
      = "exit"
    ∧ (loopNode ⟨10, none, none, some "return True"⟩ "loop_2" (some true)
        [("loop_2", ⟨10, 0, false⟩)] []).decision = "exit" :=
  ⟨by decide, by decide,
   c7_loop_cap_forces_exit ⟨10, some "items", some "item", none⟩ "loop_1" none
     [("loop_1", ⟨10, 2, false⟩)]
     [("items", PyVal.vList
        [PyVal.vInt 1, PyVal.vInt 2, PyVal.vInt 3, PyVal.vInt 4])]
     (by decide) (by decide),
   c7_loop_cap_forces_exit ⟨10, none, none, some "return True"⟩ "loop_2"
     (some true) [("loop_2", ⟨10, 0, false⟩)] [] (by decide) (by decide)⟩

/-- Claim C8 (confirmed): for attempt `n ≥ 1` under `exponential`
backoff, `calculate_retry_delay` returns exactly
`min(maxDelayMs, initialDelayMs * 2^(n-1))` when jitter is disabled,
and that value multiplied by the sampled jitter factor when jitter is
enabled — the factor is drawn by `random.uniform(0.8, 1.2)`, whose
contract keeps it in `[0.8, 1.2]`; the equality holds for every
factor. -/
theorem c8_exponential_delay (n : Nat) (initial maxd jf : ℚ) (hn : 1 ≤ n) :
    calculate_retry_delay n initial maxd "exponential" false jf
      = min maxd (initial * 2 ^ (n - 1))
    ∧ calculate_retry_delay n initial maxd "exponential" true jf
      = min maxd (initial * 2 ^ (n - 1)) * jf := by
  constructor
  · show min (initial * 2 ^ (n - 1)) maxd = min maxd (initial * 2 ^ (n - 1))
    exact min_comm _ _
  · show min (initial * 2 ^ (n - 1)) maxd * jf
      = min maxd (initial * 2 ^ (n - 1)) * jf
    rw [min_comm]

/-- Claim C8 witness: attempt 3 with initial delay 1000 ms and cap
30000 ms, no jitter, yields `min(30000, 1000·2²) = 4000`. -/
theorem c8_witness :
    1 ≤ 3
    ∧ calculate_retry_delay 3 1000 30000 "exponential" false 1
      = min 30000 (1000 * 2 ^ (3 - 1))
    ∧ min (30000 : ℚ) (1000 * 2 ^ (3 - 1)) = 4000 :=
  ⟨by norm_num,
   (c8_exponential_delay 3 1000 30000 1 (by norm_num)).1,
   by norm_num⟩

/-- Claim C9 (confirmed): a write with `overwrite_existing = False`
over an existing value merges instead of replacing, in both tiers:
list-extend when both are lists, dict-update when both are dicts,
concatenation when both are strings, and the two-element list
`[old, new]` for every mismatched pair.  For the long-term tier the
existing entry is the wrapped item every `LongTermMemory.write`
produces. -/
theorem c9_no_overwrite_merges (mem : StStore) (store : LtStore)
    (key : String) (nspace : Option String) (ttl : Option Nat)
    (now created : Nat) (expires : Option Nat) (oldSt oldLt value : PyVal)
    (hSt : ShortTermMemory.read mem key nspace = some oldSt)
    (hLt : alGet key ((alGet (nspace.getD "default") store).getD [])
      = some (LtItem.wrapped oldLt created expires)) :
    ShortTermMemory.read
        (ShortTermMemory.write mem key value nspace ttl false) key nspace
      = some (mergeExisting oldSt value)
    ∧ LongTermMemory.read
        (LongTermMemory.write store key value nspace ttl now false) key nspace
      = some (mergeExisting oldLt value)
    ∧ (∀ a b, mergeExisting (PyVal.vList a) (PyVal.vList b)
        = PyVal.vList (a ++ b))
    ∧ (∀ a b, mergeExisting (PyVal.vDict a) (PyVal.vDict b)
        = PyVal.vDict (dictUpdate a b))
    ∧ (∀ a b, mergeExisting (PyVal.vStr a) (PyVal.vStr b)
        = PyVal.vStr (a ++ b))
    ∧ ((match oldSt, value with
        | PyVal.vList _, PyVal.vList _ => False
        | PyVal.vDict _, PyVal.vDict _ => False
        | PyVal.vStr _, PyVal.vStr _ => False
        | _, _ => True) →
       mergeExisting oldSt value = PyVal.vList [oldSt, value]) := by
  refine ⟨?_, ?_, fun a b => rfl, fun a b => rfl, fun a b => rfl, ?_⟩
  · rcases hns : alGet (nspace.getD "default") mem with _ | nsMap0
    · exfalso
      unfold ShortTermMemory.read at hSt
      rw [hns] at hSt
      exact Option.noConfusion hSt
    · have hSt' : alGet key nsMap0 = some oldSt := by
        unfold ShortTermMemory.read at hSt
        rw [hns] at hSt
        exact hSt
      have hmem : alMem key nsMap0 = true := by simp [alMem, hSt']
      simp [ShortTermMemory.write, ShortTermMemory.read, hns, hmem, hSt',
        alGet_alSet_self]
  · simp [LongTermMemory.write, LongTermMemory.read, hLt, alGet_alSet_self]
  · intro hmm
    cases oldSt <;> cases value <;> first | rfl | exact hmm.elim

/-- Claim C9 witness: writing the integer `1` over the existing string
`"a"` (a mismatched pair) with `overwrite_existing = False` stores the
two-element list `[old, new]` in both tiers. -/
theorem c9_witness :
    ShortTermMemory.read stStore0 "k" none = some (PyVal.vStr "a")
    ∧ ShortTermMemory.read
        (ShortTermMemory.write stStore0 "k" (PyVal.vInt 1) none none false)
        "k" none = some (mergeExisting (PyVal.vStr "a") (PyVal.vInt 1))
    ∧ LongTermMemory.read
        (LongTermMemory.write ltStore0 "k" (PyVal.vInt 1) none none 7 false)
        "k" none = some (mergeExisting (PyVal.vStr "a") (PyVal.vInt 1))
    ∧ mergeExisting (PyVal.vStr "a") (PyVal.vInt 1)
      = PyVal.vList [PyVal.vStr "a", PyVal.vInt 1] :=
  ⟨rfl,
   (c9_no_overwrite_merges stStore0 ltStore0 "k" none none 7 5 none
     (PyVal.vStr "a") (PyVal.vStr "a") (PyVal.vInt 1) rfl rfl).1,
   (c9_no_overwrite_merges stStore0 ltStore0 "k" none none 7 5 none
     (PyVal.vStr "a") (PyVal.vStr "a") (PyVal.vInt 1) rfl rfl).2.1,
   (c9_no_overwrite_merges stStore0 ltStore0 "k" none none 7 5 none
     (PyVal.vStr "a") (PyVal.vStr "a") (PyVal.vInt 1) rfl rfl).2.2.2.2.2
     trivial⟩

/-- Claim C10 (confirmed): `ShortTermMemory.write` never consults its
`ttl` argument — any two ttl values produce identical short-term store
contents, so short-term values never expire on account of the passed
ttl. -/
theorem c10_short_term_write_ignores_ttl (mem : StStore) (key : String)
    (value : PyVal) (nspace : Option String) (overwrite_existing : Bool)
    (ttl1 ttl2 : Option Nat) :
    ShortTermMemory.write mem key value nspace ttl1 overwrite_existing
      = ShortTermMemory.write mem key value nspace ttl2 overwrite_existing :=
  rfl

end LangGraphServer
